import Mathlib

/-!
Verification development for `getAndAnalyzeIPRoute.py` (NPL challenge, June 2019).

The repository source contains three parts relevant to the claims:
  * `build_iproute_template` writes out the `cisco_ios_show_ip_route` TextFSM
    template (value declarations plus the `Start`, `Routes` and `EOF` states).
    The template text is embedded below, rule by rule, as `iprouteValues`,
    `startRules` and `routesRules`.
  * `main` feeds the parsed table into a deduplication over the tuple
    (protocol, network, mask) - fields 0, 2 and 3 of each row - and prints
    per-protocol counts.  Embedded as `uniqueRoutes`, `countProto`,
    `routeReport`.
  * The matching engine itself is the external `textfsm` library, which is not
    part of the repository.  Its line-matching automaton is modelled from the
    specification (section 4.2) as `stepLine` / `runLines` / `parseLines`.

Regular expressions are modelled by a small backtracking matcher (`mrun`) that
covers exactly the constructs used by the template: character classes, greedy
bounded and unbounded repetition of a class, alternation, optional groups,
literals and named capture groups.  Matching is anchored at the start of the
line and may leave a suffix unconsumed, which is the semantics the spec
mandates for rules (leading caret, match from line start).
-/

/-- Word characters, as the ASCII reading of the regex class backslash-w. -/
def isWordB (c : Char) : Bool :=
  c.isAlpha || c.isDigit || c = '_'

/-- The character classes occurring in the template regexes:
digit, word, whitespace, uppercase letter, the interface-name class
(word chars plus dash, dot, colon, slash), the uptime class
(word chars plus colon, dot), and the wildcard dot (any char except newline). -/
inductive CClass where
  | digit
  | word
  | space
  | upper
  | ifChar
  | uptimeChar
  | anyChar
deriving DecidableEq

/-- Membership test of a character in a character class. -/
def CClass.mem : CClass → Char → Bool
  | .digit, c => c.isDigit
  | .word, c => isWordB c
  | .space, c => c = ' ' || c = '\t' || c = '\n' || c = '\r' || c = '\x0b' || c = '\x0c'
  | .upper, c => 'A' ≤ c && c ≤ 'Z'
  | .ifChar, c => isWordB c || c = '-' || c = '.' || c = ':' || c = '/'
  | .uptimeChar, c => isWordB c || c = ':' || c = '.'
  | .anyChar, c => c ≠ '\n'

/-- Regular expressions, restricted to the constructs the template uses.
`rep k lo hi` is greedy repetition of a character class (`hi = none` meaning
unbounded); `grp v a` is a named capture group binding value `v`. -/
inductive RE where
  | eps
  | str (s : String)
  | cls (k : CClass)
  | seq (a b : RE)
  | alt (a b : RE)
  | opt (a : RE)
  | rep (k : CClass) (lo : Nat) (hi : Option Nat)
  | grp (v : String) (a : RE)

/-- Named captures collected while matching, in group-completion order. -/
abbrev Caps := List (String × String)

/-- Insert a capture, replacing an earlier capture of the same name. -/
def setCap (caps : Caps) (v s : String) : Caps :=
  caps.filter (fun c => c.1 != v) ++ [(v, s)]

/-- Strip a literal from the front of the input, returning the rest. -/
def stripLit : List Char → List Char → Option (List Char)
  | [], s => some s
  | _ :: _, [] => none
  | c :: cs, d :: ds => if c = d then stripLit cs ds else none

/-- Length of the longest run of characters of class `k` at the front of `s`. -/
def maxRun (k : CClass) : List Char → Nat
  | [] => 0
  | c :: cs => if k.mem c then maxRun k cs + 1 else 0

/-- Greedy backtracking over the repetition count: try `n` characters first,
then fewer, never fewer than `lo`.  The caller guarantees that every count
up to the initial `n` consists of characters of the repeated class. -/
def repTry : Nat → Nat → List Char → Caps → (List Char → Caps → Option Caps) → Option Caps
  | 0, lo, s, caps, k => if lo = 0 then k s caps else none
  | n + 1, lo, s, caps, k =>
      if n + 1 < lo then none
      else
        match k (s.drop (n + 1)) caps with
        | some r => some r
        | none => repTry n lo s caps k

/-- Cap a repetition count by the optional upper bound. -/
def capHi (n : Nat) : Option Nat → Nat
  | none => n
  | some h => min n h

/-- Backtracking matcher in continuation-passing style.  `mrun r s caps k`
tries to match `r` against a front segment of `s`; on success the
continuation `k` receives the unconsumed suffix and the updated captures.
Alternation prefers its left branch, optional prefers presence, repetition
is greedy: the leftmost-greedy semantics of the Python `re` module. -/
def mrun : RE → List Char → Caps → (List Char → Caps → Option Caps) → Option Caps
  | .eps, s, caps, k => k s caps
  | .str t, s, caps, k =>
      match stripLit t.toList s with
      | some s' => k s' caps
      | none => none
  | .cls c, s, caps, k =>
      match s with
      | [] => none
      | a :: s' => if c.mem a then k s' caps else none
  | .seq a b, s, caps, k => mrun a s caps (fun s' caps' => mrun b s' caps' k)
  | .alt a b, s, caps, k =>
      match mrun a s caps k with
      | some r => some r
      | none => mrun b s caps k
  | .opt a, s, caps, k =>
      match mrun a s caps k with
      | some r => some r
      | none => k s caps
  | .rep kl lo hi, s, caps, k => repTry (capHi (maxRun kl s) hi) lo s caps k
  | .grp v a, s, caps, k =>
      mrun a s caps (fun s' caps' =>
        k s' (setCap caps' v (String.mk (s.take (s.length - s'.length)))))

/-- Match a rule pattern against a line, anchored at the line start; a suffix
of the line may remain unconsumed.  Returns the named captures on success. -/
def reMatch (pat : RE) (line : String) : Option Caps :=
  mrun pat line.toList [] (fun _ caps => some caps)

/-!
The data model of the parsing core.  The value declarations, rule patterns and
actions below are transcribed from the template text written by
`build_iproute_template` (source lines 142-194); the automaton itself is
modelled from the specification.
-/

/-- A `Value NAME (regex)` declaration: name, capture pattern and the modifier
flags used by this template (`Required`, `Filldown`).  The `List` modifier is
part of the template language but is used by no value of this template, so it
is not modelled. -/
structure ValueDef where
  name : String
  pat : RE
  required : Bool
  filldown : Bool

/-- Modelled from the spec: the rule actions of section 4.2 - `Record`,
`Clear`, `Clearall`, `Next`, `Continue` and transition to a named state. -/
inductive LineAct where
  | record
  | clear
  | clearall
  | next
  | cont
  | toState (s : String)
deriving DecidableEq

/-- A rule of a state: a line pattern and the action taken on a match. -/
structure Rule where
  pat : RE
  act : LineAct

/-- A named state: an ordered list of rules. -/
structure FSMState where
  name : String
  rules : List Rule

/-- A compiled template: value declarations in order, states by name. -/
structure FSMCfg where
  values : List ValueDef
  states : List FSMState

/-- Value regex of NETWORK and NEXTHOP_IP.  The dots of the source pattern
are unescaped, so each separator position is the regex wildcard (any
character but newline), not a literal dot. -/
def reIPv4ish : RE :=
  .seq (.rep .digit 1 (some 3)) (.seq (.cls .anyChar)
    (.seq (.rep .digit 1 (some 3)) (.seq (.cls .anyChar)
      (.seq (.rep .digit 1 (some 3)) (.seq (.cls .anyChar)
        (.rep .digit 1 (some 3)))))))

/-- Value regex of PROTOCOL: one word character. -/
def PROTOCOL_pat : RE := .cls .word

/-- Value regex of TYPE: zero to two word characters. -/
def TYPE_pat : RE := .rep .word 0 (some 2)

/-- Value regex of NETWORK (unescaped dots, see `reIPv4ish`). -/
def NETWORK_pat : RE := reIPv4ish

/-- Value regex of MASK: one or two digits. -/
def MASK_pat : RE := .rep .digit 1 (some 2)

/-- Value regex of DISTANCE: one or more digits. -/
def DISTANCE_pat : RE := .rep .digit 1 none

/-- Value regex of METRIC: one or more digits. -/
def METRIC_pat : RE := .rep .digit 1 none

/-- Value regex of NEXTHOP_IP (same pattern as NETWORK). -/
def NEXTHOP_IP_pat : RE := reIPv4ish

/-- Value regex of NEXTHOP_IF: an uppercase letter followed by one or more
characters of the interface class. -/
def NEXTHOP_IF_pat : RE := .seq (.cls .upper) (.rep .ifChar 1 none)

/-- Value regex of UPTIME: a digit followed by one or more uptime-class
characters. -/
def UPTIME_pat : RE := .seq (.cls .digit) (.rep .uptimeChar 1 none)

/-- The nine value declarations of the template, in declaration order:
PROTOCOL, TYPE, NETWORK and MASK are Filldown, NETWORK is also Required,
the remaining five values carry no modifier. -/
def iprouteValues : List ValueDef :=
  [⟨"PROTOCOL", PROTOCOL_pat, false, true⟩,
   ⟨"TYPE", TYPE_pat, false, true⟩,
   ⟨"NETWORK", NETWORK_pat, true, true⟩,
   ⟨"MASK", MASK_pat, false, true⟩,
   ⟨"DISTANCE", DISTANCE_pat, false, false⟩,
   ⟨"METRIC", METRIC_pat, false, false⟩,
   ⟨"NEXTHOP_IP", NEXTHOP_IP_pat, false, false⟩,
   ⟨"NEXTHOP_IF", NEXTHOP_IF_pat, false, false⟩,
   ⟨"UPTIME", UPTIME_pat, false, false⟩]

/-- Right-nested sequencing of a list of regex pieces. -/
def reSeq (l : List RE) : RE := l.foldr .seq .eps

/-- One whitespace character. -/
def reSp : RE := .cls .space

/-- One or more whitespace characters. -/
def reSpPlus : RE := .rep .space 1 none

/-- Zero or more whitespace characters. -/
def reSpStar : RE := .rep .space 0 none

/-- The group after the protocol letter: a whitespace or a star. -/
def altSpStar : RE := .alt (.cls .space) (.str "*")

/-- Shared head of the route rules: PROTOCOL placeholder, space-or-star,
TYPE placeholder, one or more spaces, NETWORK placeholder. -/
def headPNT : RE :=
  reSeq [.grp "PROTOCOL" PROTOCOL_pat, altSpStar, .grp "TYPE" TYPE_pat,
         reSpPlus, .grp "NETWORK" NETWORK_pat]

/-- Shared tail of the via rules: a bracketed DISTANCE/METRIC pair, the word
via, the NEXTHOP_IP placeholder and two optional groups for UPTIME and
NEXTHOP_IF. -/
def viaCore : RE :=
  reSeq [.str "[", .grp "DISTANCE" DISTANCE_pat, .str "/",
         .grp "METRIC" METRIC_pat, .str "]", reSp, .str "via", reSp,
         .grp "NEXTHOP_IP" NEXTHOP_IP_pat,
         .opt (reSeq [.str ",", reSp, .grp "UPTIME" UPTIME_pat]),
         .opt (reSeq [.str ",", reSp, .grp "NEXTHOP_IF" NEXTHOP_IF_pat])]

/-- Routes rule 1: the is-subnetted header line; captures MASK, action Clear. -/
def r1pat : RE :=
  reSeq [reSpPlus, .rep .digit 1 (some 3), .cls .anyChar,
         .rep .digit 1 (some 3), .cls .anyChar, .rep .digit 1 (some 3),
         .cls .anyChar, .rep .digit 1 (some 3), .str "/",
         .grp "MASK" MASK_pat, reSp, .str "is"]

/-- Routes rule 2: directly connected route with explicit mask. -/
def r2pat : RE :=
  reSeq [headPNT, .str "/", .grp "MASK" MASK_pat, reSp, .str "is", reSp,
         .str "directly", reSp, .str "connected,", reSp,
         .grp "NEXTHOP_IF" NEXTHOP_IF_pat]

/-- Routes rule 3: directly connected route, mask inherited. -/
def r3pat : RE :=
  reSeq [headPNT, reSp, .str "is", reSp, .str "directly", reSp,
         .str "connected,", reSp, .grp "NEXTHOP_IF" NEXTHOP_IF_pat]

/-- Routes rule 4: regular route with mask, all data on one line. -/
def r4pat : RE := reSeq [headPNT, .str "/", .grp "MASK" MASK_pat, reSp, viaCore]

/-- Routes rule 5: regular route, mask inherited, all on one line. -/
def r5pat : RE := reSeq [headPNT, reSp, viaCore]

/-- Routes rule 6: route with no via statement. -/
def r6pat : RE :=
  reSeq [headPNT, .str "/", .grp "MASK" MASK_pat, reSp, .str "[",
         .grp "DISTANCE" DISTANCE_pat, .str "/", .grp "METRIC" METRIC_pat,
         .str "],", reSp, .grp "UPTIME" UPTIME_pat, .str ",", reSp,
         .grp "NEXTHOP_IF" NEXTHOP_IF_pat]

/-- Routes rule 7: is-a-summary routes. -/
def r7pat : RE :=
  reSeq [headPNT, .str "/", .grp "MASK" MASK_pat, reSp, .str "is", reSp,
         .str "a", reSp, .str "summary,", reSp, .grp "UPTIME" UPTIME_pat,
         .str ",", reSp, .grp "NEXTHOP_IF" NEXTHOP_IF_pat]

/-- Routes rule 8: network and mask on their own line, action Next. -/
def r8pat : RE := reSeq [headPNT, .str "/", .grp "MASK" MASK_pat]

/-- Routes rule 9: network only on its own line, action Next. -/
def r9pat : RE := headPNT

/-- Routes rule 10: the rest of the route on the following line. -/
def r10pat : RE := reSeq [reSpPlus, viaCore]

/-- Routes rule 11: load-balanced routes. -/
def r11pat : RE :=
  reSeq [reSpPlus, .str "[", .grp "DISTANCE" DISTANCE_pat, .str "/",
         .grp "METRIC" METRIC_pat, .str "]", reSp, .str "via", reSp,
         .grp "NEXTHOP_IP" NEXTHOP_IP_pat]

/-- Routes rule 12: empty (or otherwise unclaimed) lines, action Clearall. -/
def r12pat : RE := reSpStar

/-- The single rule of the Start state: a line beginning with Gateway
switches to the Routes state. -/
def startRules : List Rule :=
  [⟨.seq (.str "Gateway") (.rep .anyChar 0 none), .toState "Routes"⟩]

/-- The twelve rules of the Routes state, in template order. -/
def routesRules : List Rule :=
  [⟨r1pat, .clear⟩, ⟨r2pat, .record⟩, ⟨r3pat, .record⟩, ⟨r4pat, .record⟩,
   ⟨r5pat, .record⟩, ⟨r6pat, .record⟩, ⟨r7pat, .record⟩, ⟨r8pat, .next⟩,
   ⟨r9pat, .next⟩, ⟨r10pat, .record⟩, ⟨r11pat, .record⟩, ⟨r12pat, .clearall⟩]

/-- The compiled `cisco_ios_show_ip_route` template: the nine values and the
states Start, Routes and EOF (the explicit empty EOF state suppresses any
record at end of input). -/
def iprouteCfg : FSMCfg :=
  ⟨iprouteValues,
   [⟨"Start", startRules⟩, ⟨"Routes", routesRules⟩, ⟨"EOF", []⟩]⟩

/-!
The matching automaton.  Modelled from the spec (section 4.2): the working
record maps value names to an optional current capture; each line is tested
against the rules of the current state in order; on the first match the
captures are assigned and the action applied; a line matching no rule is
skipped; end of input discards the working record.
-/

/-- Modelled from the spec: the working record, a mapping from value name to
the current capture (none when the value was never captured since the last
clear affecting it). -/
abbrev WRec := String → Option String

/-- Modelled from the spec: the running state of the automaton - current
state name, working record, output table accumulated so far. -/
structure RunState where
  cur : String
  wr : WRec
  out : List (List String)

/-- Modelled from the spec: the initial running state. -/
def initRS : RunState := ⟨"Start", fun _ => none, []⟩

/-- Overwrite one value of the working record. -/
def updW (w : WRec) (n v : String) : WRec :=
  fun x => if x == n then some v else w x

/-- Assign the captures of a matched rule into the working record. -/
def assignCaps (w : WRec) (caps : Caps) : WRec :=
  caps.foldl (fun a c => updW a c.1 c.2) w

/-- Modelled from the spec: clear every non-Filldown value. -/
def clearNonFD (vals : List ValueDef) (w : WRec) : WRec :=
  fun n => if vals.any (fun v => v.name == n && !v.filldown) then none else w n

/-- Modelled from the spec: Clearall clears every value. -/
def clearAllW : WRec := fun _ => none

/-- Modelled from the spec: an output row lists the current captures in value
declaration order, an empty string standing for a missing capture. -/
def mkRow (vals : List ValueDef) (w : WRec) : List String :=
  vals.map (fun v => (w v.name).getD "")

/-- Modelled from the spec: a record may be emitted only when every Required
value has been captured since the last clear. -/
def requiredOk (vals : List ValueDef) (w : WRec) : Bool :=
  vals.all (fun v => !v.required || (w v.name).isSome)

/-- Modelled from the spec: effect of a rule action on the running state,
after the captures have been assigned into the working record `w`.
`Record` appends a row when the Required values are present and then clears
the non-Filldown values (the clear happens in either case); `Clear` clears
the non-Filldown values; `Clearall` clears everything; `Next` and `Continue`
keep the state; a state-name action switches the current state. -/
def applyAct (vals : List ValueDef) (a : LineAct) (st : RunState) (w : WRec) : RunState :=
  match a with
  | .record =>
      ⟨st.cur, clearNonFD vals w,
       if requiredOk vals w then st.out ++ [mkRow vals w] else st.out⟩
  | .clear => ⟨st.cur, clearNonFD vals w, st.out⟩
  | .clearall => ⟨st.cur, clearAllW, st.out⟩
  | .next => ⟨st.cur, w, st.out⟩
  | .cont => ⟨st.cur, w, st.out⟩
  | .toState s => ⟨s, w, st.out⟩

/-- First rule of the list matching the line, with its captures. -/
def ruleFirst : List Rule → String → Option (Caps × LineAct)
  | [], _ => none
  | r :: rs, line =>
      match reMatch r.pat line with
      | some caps => some (caps, r.act)
      | none => ruleFirst rs line

/-- Rules of the named state (no rules when the name is unknown). -/
def rulesOf (cfg : FSMCfg) (s : String) : List Rule :=
  ((cfg.states.find? (fun st => st.name == s)).map FSMState.rules).getD []

/-- First matching rule of the current state against a line. -/
def firstRuleMatch (cfg : FSMCfg) (s : String) (line : String) : Option (Caps × LineAct) :=
  ruleFirst (rulesOf cfg s) line

/-- Modelled from the spec: process one input line - find the first matching
rule of the current state, assign its captures, apply its action; a line
matching no rule leaves the running state unchanged. -/
def stepLine (cfg : FSMCfg) (st : RunState) (line : String) : RunState :=
  match firstRuleMatch cfg st.cur line with
  | none => st
  | some (caps, a) => applyAct cfg.values a st (assignCaps st.wr caps)

/-- Modelled from the spec: run the automaton over the input lines from the
initial state.  Nothing happens after the last line: the working record in
progress at end of input is discarded. -/
def runLines (cfg : FSMCfg) (ls : List String) : RunState :=
  ls.foldl (stepLine cfg) initRS

/-- Modelled from the spec: the output table of a run. -/
def parseLines (cfg : FSMCfg) (ls : List String) : List (List String) :=
  (runLines cfg ls).out

/-!
Deduplication and reporting, transcribed from `main` (source lines 315-335).
-/

/-- The projection used by `main`: fields 0, 2 and 3 of a row, that is
protocol, network and mask. -/
def projKey (r : List String) : String × String × String :=
  (r.getD 0 "", r.getD 2 "", r.getD 3 "")

/-- The set of distinct (protocol, network, mask) tuples of a table,
as the duplicate-free list of projections. -/
def uniqueRoutes (t : List (List String)) : List (String × String × String) :=
  (t.map projKey).dedup

/-- Number of distinct routes whose protocol field equals `p`. -/
def countProto (t : List (List String)) (p : String) : Nat :=
  ((uniqueRoutes t).filter (fun k => k.1 == p)).length

/-- The five counts printed by `main`. -/
structure RouteReport where
  connectedN : Nat
  eigrpN : Nat
  localN : Nat
  ospfN : Nat
  staticN : Nat
deriving DecidableEq

/-- The report of `main`: connected counts protocol C, EIGRP counts D,
Local counts L, OSPF counts O, static counts S. -/
def routeReport (t : List (List String)) : RouteReport :=
  ⟨countProto t "C", countProto t "D", countProto t "L",
   countProto t "O", countProto t "S"⟩

/-- The five-line sample text of the specification. -/
def sampleText : List String :=
  ["Gateway of last resort is not set",
   "     10.0.0.0/24 is subnetted, 1 subnets",
   "C       10.0.0.0 is directly connected, GigabitEthernet0/1",
   "O    10.1.1.0/24 [110/20] via 10.0.0.2, 00:10:21, GigabitEthernet0/1",
   "S    10.2.2.0/24 [1/0] via 10.0.0.3"]

/-!
Helper lemmas shared by the claim theorems.
-/

/-- The values of the compiled template. -/
lemma iprouteCfg_values : iprouteCfg.values = iprouteValues := rfl

/-- With this template the Required check comes down to NETWORK having a
current capture: NETWORK is the only Required value. -/
lemma requiredOk_iproute (w : WRec) :
    requiredOk iprouteValues w = (w "NETWORK").isSome := by
  simp [requiredOk, iprouteValues]

/-- MASK is Filldown, so clearing the non-Filldown values leaves it alone. -/
lemma clearNonFD_mask (w : WRec) : clearNonFD iprouteValues w "MASK" = w "MASK" := rfl

/-- Field 3 of an emitted row is the current MASK capture. -/
lemma mkRow_mask (w : WRec) : (mkRow iprouteValues w).getD 3 "" = (w "MASK").getD "" := rfl

/-- Assigning captures leaves every value they do not mention unchanged. -/
lemma assignCaps_pres (caps : Caps) (w : WRec) (n : String)
    (h : n ∉ caps.map Prod.fst) : assignCaps w caps n = w n := by
  induction caps generalizing w with
  | nil => rfl
  | cons c cs ih =>
      simp only [List.map_cons, List.mem_cons, not_or] at h
      calc assignCaps w (c :: cs) n
          = assignCaps (updW w c.1 c.2) cs n := rfl
        _ = updW w c.1 c.2 n := ih (updW w c.1 c.2) h.2
        _ = w n := by simp [updW, h.1]

/-- A literal fails to strip when the input does not begin with it. -/
lemma stripLit_eq_none (t l : List Char) (h : l.take t.length ≠ t) :
    stripLit t l = none := by
  induction t generalizing l with
  | nil => simp at h
  | cons c cs ih =>
      cases l with
      | nil => rfl
      | cons d ds =>
          by_cases hc : c = d
          · subst hc
            have hds : ds.take cs.length ≠ cs := by
              intro he
              exact h (by simp [he])
            simpa [stripLit] using ih ds hds
          · simp [stripLit, hc]

/-- A line that does not begin with Gateway matches no rule of the Start
state. -/
lemma start_no_match (l : String) (h : l.toList.take 7 ≠ "Gateway".toList) :
    firstRuleMatch iprouteCfg "Start" l = none := by
  have hs : stripLit "Gateway".toList l.toList = none :=
    stripLit_eq_none "Gateway".toList l.toList
      (by rw [show ("Gateway".toList.length) = 7 from rfl]; exact h)
  show ruleFirst startRules l = none
  simp only [ruleFirst, startRules, reMatch, mrun, hs]

/-- A line matching no rule of the current state leaves the running state
unchanged. -/
lemma stepLine_skip (cfg : FSMCfg) (st : RunState) (l : String)
    (h : firstRuleMatch cfg st.cur l = none) : stepLine cfg st l = st := by
  simp [stepLine, h]

/-- Folding over lines that match no rule of the Start state is the
identity on a running state sitting in Start. -/
lemma foldl_start_skip (ls : List String) (st : RunState) (hcur : st.cur = "Start")
    (h : ∀ l ∈ ls, firstRuleMatch iprouteCfg "Start" l = none) :
    ls.foldl (stepLine iprouteCfg) st = st := by
  induction ls generalizing st with
  | nil => rfl
  | cons l ls ih =>
      have h0 : firstRuleMatch iprouteCfg st.cur l = none := by
        rw [hcur]; exact h l (by simp)
      rw [List.foldl_cons, stepLine_skip iprouteCfg st l h0]
      exact ih st hcur (fun x hx => h x (by simp [hx]))

/-- The output table grows only at a Record action whose Required check
passes, and then by exactly the finalized working record. -/
lemma step_out_cases (cfg : FSMCfg) (st : RunState) (line : String) :
    (stepLine cfg st line).out = st.out ∨
    ∃ caps, firstRuleMatch cfg st.cur line = some (caps, LineAct.record) ∧
      requiredOk cfg.values (assignCaps st.wr caps) = true ∧
      (stepLine cfg st line).out =
        st.out ++ [mkRow cfg.values (assignCaps st.wr caps)] := by
  cases h : firstRuleMatch cfg st.cur line with
  | none => exact Or.inl (by simp [stepLine, h])
  | some pa =>
      obtain ⟨caps, a⟩ := pa
      cases a with
      | record =>
          by_cases hreq : requiredOk cfg.values (assignCaps st.wr caps) = true
          · exact Or.inr ⟨caps, rfl, hreq, by simp [stepLine, h, applyAct, hreq]⟩
          · rw [Bool.not_eq_true] at hreq
            exact Or.inl (by simp [stepLine, h, applyAct, hreq])
      | clear => exact Or.inl (by simp [stepLine, h, applyAct])
      | clearall => exact Or.inl (by simp [stepLine, h, applyAct])
      | next => exact Or.inl (by simp [stepLine, h, applyAct])
      | cont => exact Or.inl (by simp [stepLine, h, applyAct])
      | toState s => exact Or.inl (by simp [stepLine, h, applyAct])

/-!
The claim theorems.
-/

/-- C1: on the five-line sample text of the spec, the automaton with the
built-in template yields exactly 3 output records whose protocol fields are
C, O, S in that order, and the category report over those records shows
Connected 1, EIGRP 0, Local 0, OSPF 1, Static 1. -/
theorem C1_sample_parse_and_report :
    (parseLines iprouteCfg sampleText).length = 3 ∧
    (parseLines iprouteCfg sampleText).map (fun r => r.getD 0 "") = ["C", "O", "S"] ∧
    routeReport (parseLines iprouteCfg sampleText) = ⟨1, 0, 0, 1, 1⟩ := by
  refine ⟨by decide, by decide, by decide⟩

/-- C2: deduplication projects each record onto the (protocol, network,
mask) fields and keeps the set of distinct tuples - the distinct-route list
has no duplicates, and a tuple is in it exactly when some record of the table
projects onto it, so records differing only in the other fields contribute
one entry. -/
theorem C2_dedup_projection (t : List (List String)) :
    (uniqueRoutes t).Nodup ∧
    ∀ k, k ∈ uniqueRoutes t ↔ ∃ r ∈ t, projKey r = k := by
  refine ⟨List.nodup_dedup _, fun k => ?_⟩
  unfold uniqueRoutes
  rw [List.mem_dedup, List.mem_map]

/-- C7: the report counts only the five mapped categories; a distinct route
whose protocol is any other value changes none of the five counts (and the
report is still defined, no error). -/
theorem C7_unmapped_protocol_ignored (t : List (List String)) (r : List String)
    (h : (projKey r).1 ∉ (["C", "D", "L", "O", "S"] : List String)) :
    routeReport (r :: t) = routeReport t := by
  have key : ∀ p : String, (projKey r).1 ≠ p → countProto (r :: t) p = countProto t p := by
    intro p hp
    have hb : ((projKey r).1 == p) = false := beq_eq_false_iff_ne.mpr hp
    unfold countProto uniqueRoutes
    rw [List.map_cons]
    by_cases hm : projKey r ∈ t.map projKey
    · rw [List.dedup_cons_of_mem hm]
    · rw [List.dedup_cons_of_not_mem hm]
      simp [List.filter_cons, hb]
  simp only [List.mem_cons, List.not_mem_nil, or_false, not_or] at h
  obtain ⟨h1, h2, h3, h4, h5⟩ := h
  unfold routeReport
  rw [key _ h1, key _ h2, key _ h3, key _ h4, key _ h5]

/-- C7 witness: a BGP route (protocol B) leaves the whole report unchanged. -/
theorem C7_unmapped_protocol_ignored_witness :
    routeReport [["B", "", "10.9.9.0", "24", "", "", "", "", ""]] = routeReport [] :=
  C7_unmapped_protocol_ignored [] ["B", "", "10.9.9.0", "24", "", "", "", "", ""] (by decide)

/-- C8: the parse is deterministic - the output table is a function of the
compiled template and the input text alone, so two runs on the same text
yield element-for-element equal tables. -/
theorem C8_deterministic (cfg : FSMCfg) (l1 l2 : List String) (h : l1 = l2) :
    parseLines cfg l1 = parseLines cfg l2 := by
  rw [h]

/-- C8 witness: two runs on the sample text agree. -/
theorem C8_deterministic_witness :
    parseLines iprouteCfg sampleText = parseLines iprouteCfg sampleText :=
  C8_deterministic iprouteCfg sampleText sampleText rfl

/-- C9: rows follow the value declaration order PROTOCOL, TYPE, NETWORK,
MASK, DISTANCE, METRIC, NEXTHOP_IP, NEXTHOP_IF, UPTIME: every row an emitted
record can be is a 9-tuple with the protocol at index 0, the network at
index 2 and the mask at index 3 - the indices the deduplication relies on -
and every row the automaton appends is of that shape. -/
theorem C9_field_order :
    iprouteValues.map ValueDef.name =
      ["PROTOCOL", "TYPE", "NETWORK", "MASK", "DISTANCE", "METRIC",
       "NEXTHOP_IP", "NEXTHOP_IF", "UPTIME"] ∧
    (∀ w : WRec, (mkRow iprouteValues w).length = 9 ∧
      (mkRow iprouteValues w).getD 0 "" = (w "PROTOCOL").getD "" ∧
      (mkRow iprouteValues w).getD 2 "" = (w "NETWORK").getD "" ∧
      (mkRow iprouteValues w).getD 3 "" = (w "MASK").getD "") ∧
    ∀ (st : RunState) (line : String),
      (stepLine iprouteCfg st line).out = st.out ∨
      ∃ w : WRec, (stepLine iprouteCfg st line).out = st.out ++ [mkRow iprouteValues w] := by
  refine ⟨rfl, fun w => ⟨rfl, rfl, rfl, rfl⟩, fun st line => ?_⟩
  rcases step_out_cases iprouteCfg st line with h | ⟨caps, _, _, h3⟩
  · exact Or.inl h
  · exact Or.inr ⟨assignCaps st.wr caps, h3⟩

/-- Input of the unescaped-dot scenario: a route line whose network octets
are separated by letters instead of dots. -/
def c10Text : List String :=
  ["Gateway of last resort is not set",
   "S    10a0b0c0/24 [1/0] via 10.0.0.3"]

/-- C10: because the NETWORK pattern uses unescaped dots, a line with octets
separated by letters still matches, and the automaton emits a record with
the string 10a0b0c0 captured as the network. -/
theorem C10_unescaped_dot :
    parseLines iprouteCfg c10Text =
      [["S", "", "10a0b0c0", "24", "1", "0", "10.0.0.3", "", ""]] := by
  decide

/-- C3: on an input no line of which matches any rule of the Start state -
in particular on any text with no line beginning with Gateway, so the
automaton never leaves Start - the run returns the empty output table (the
run is a total function, so no error is possible). -/
theorem C3_no_match_empty_table :
    (∀ ls : List String, (∀ l ∈ ls, firstRuleMatch iprouteCfg "Start" l = none) →
        parseLines iprouteCfg ls = []) ∧
    (∀ l : String, l.toList.take 7 ≠ "Gateway".toList →
        firstRuleMatch iprouteCfg "Start" l = none) := by
  constructor
  · intro ls h
    show (ls.foldl (stepLine iprouteCfg) initRS).out = []
    rw [foldl_start_skip ls initRS rfl h]
    rfl
  · exact start_no_match

/-- C3 witness: a text with a route line but no Gateway line parses to the
empty table. -/
theorem C3_no_match_empty_table_witness :
    parseLines iprouteCfg
      ["hello world", "C    10.0.0.0 is directly connected, Eth0"] = [] :=
  C3_no_match_empty_table.1
    ["hello world", "C    10.0.0.0 is directly connected, Eth0"] (by decide)

/-- C4: a Record action firing while the Required value NETWORK has no
current capture appends no record (and the automaton continues in the same
state); once NETWORK is captured, the Record action does append the
finalized working record. -/
theorem C4_required_gates_record (st : RunState) (w : WRec) :
    (w "NETWORK" = none →
        (applyAct iprouteValues LineAct.record st w).out = st.out) ∧
    ((w "NETWORK").isSome = true →
        (applyAct iprouteValues LineAct.record st w).out =
          st.out ++ [mkRow iprouteValues w]) ∧
    (applyAct iprouteValues LineAct.record st w).cur = st.cur := by
  refine ⟨fun h => ?_, fun h => ?_, rfl⟩
  · simp [applyAct, requiredOk_iproute, h]
  · simp [applyAct, requiredOk_iproute, h]

/-- C4 witness: with nothing captured the record is suppressed; after
capturing NETWORK the record is appended. -/
theorem C4_required_gates_record_witness :
    (applyAct iprouteValues LineAct.record initRS (fun _ => none)).out = initRS.out ∧
    (applyAct iprouteValues LineAct.record initRS
        (updW (fun _ => none) "NETWORK" "10.0.0.0")).out =
      initRS.out ++ [mkRow iprouteValues (updW (fun _ => none) "NETWORK" "10.0.0.0")] :=
  ⟨(C4_required_gates_record initRS (fun _ => none)).1 rfl,
   (C4_required_gates_record initRS (updW (fun _ => none) "NETWORK" "10.0.0.0")).2.1 rfl⟩

/-- C6: the output table only ever grows at an explicit Record action, and
then by exactly the finalized working record; since a run folds `stepLine`
over the lines and does nothing afterwards, no implicit record is emitted at
end of input and the in-progress working record is discarded. -/
theorem C6_no_implicit_eof_record (cfg : FSMCfg) (st : RunState) (line : String) :
    (stepLine cfg st line).out = st.out ∨
    ∃ caps, firstRuleMatch cfg st.cur line = some (caps, LineAct.record) ∧
      (stepLine cfg st line).out =
        st.out ++ [mkRow cfg.values (assignCaps st.wr caps)] := by
  rcases step_out_cases cfg st line with h | ⟨caps, h1, _, h3⟩
  · exact Or.inl h
  · exact Or.inr ⟨caps, h1, h3⟩

/-- Per-line trace of the matched action along a run (none when the line
matched no rule of the state current at that point). -/
def actTrace (cfg : FSMCfg) : RunState → List String → List (Option LineAct)
  | _, [] => []
  | st, l :: ls =>
      (firstRuleMatch cfg st.cur l).map Prod.snd :: actTrace cfg (stepLine cfg st l) ls

/-- Input refuting C5 as stated: two is-subnetted header lines with
different masks, no blank line (so no Clearall) in between. -/
def cexText : List String :=
  ["Gateway of last resort is not set",
   "     10.0.0.0/24 is subnetted, 1 subnets",
   "C       10.0.0.0 is directly connected, GigabitEthernet0/1",
   "     10.5.5.0/16 is subnetted, 1 subnets",
   "C       10.5.5.0 is directly connected, GigabitEthernet0/2"]

/-- C5 counterexample: the Filldown value MASK is captured as 24 and emitted
in the first record, yet the next emitted record carries mask 16 although no
Clearall action ever fired (the action trace is state-switch, Clear, Record,
Clear, Record) and the input had not ended: a later rule match recaptured
MASK, which the claim as stated does not allow for. -/
theorem C5_filldown_counterexample :
    parseLines iprouteCfg cexText =
      [["C", "", "10.0.0.0", "24", "", "", "", "GigabitEthernet0/1", ""],
       ["C", "", "10.5.5.0", "16", "", "", "", "GigabitEthernet0/2", ""]] ∧
    actTrace iprouteCfg initRS cexText =
      [some (LineAct.toState "Routes"), some LineAct.clear, some LineAct.record,
       some LineAct.clear, some LineAct.record] := by
  refine ⟨by decide, by decide⟩

/-- C5 (amended): once captured, a Filldown value such as MASK keeps its
value across a step - in particular across the clear implied by a Record
action and across a plain Clear - and any record emitted by the step carries
it unchanged, as long as the step does not fire a Clearall action and does
not recapture the value; it can change when a matching rule captures it
anew, as the counterexample shows, or be erased by Clearall. -/
theorem C5_filldown_survives_record_clear (st : RunState) (line : String) (m : String)
    (hm : st.wr "MASK" = some m)
    (hr : ∀ caps a, firstRuleMatch iprouteCfg st.cur line = some (caps, a) →
        "MASK" ∉ caps.map Prod.fst ∧ a ≠ LineAct.clearall) :
    (stepLine iprouteCfg st line).wr "MASK" = some m ∧
    ∀ row ∈ (stepLine iprouteCfg st line).out,
      row ∈ st.out ∨ row.getD 3 "" = m := by
  cases h : firstRuleMatch iprouteCfg st.cur line with
  | none =>
      refine ⟨by simpa [stepLine, h] using hm, fun row hrow => Or.inl ?_⟩
      simpa [stepLine, h] using hrow
  | some pa =>
      obtain ⟨caps, a⟩ := pa
      obtain ⟨hnc, hca⟩ := hr caps a h
      have hw : assignCaps st.wr caps "MASK" = some m := by
        rw [assignCaps_pres caps st.wr "MASK" hnc]; exact hm
      cases a with
      | record =>
          have hwr : (stepLine iprouteCfg st line).wr =
              clearNonFD iprouteValues (assignCaps st.wr caps) := by
            simp [stepLine, h, applyAct, iprouteCfg_values]
          have hout : (stepLine iprouteCfg st line).out =
              if requiredOk iprouteValues (assignCaps st.wr caps) then
                st.out ++ [mkRow iprouteValues (assignCaps st.wr caps)]
              else st.out := by
            simp [stepLine, h, applyAct, iprouteCfg_values]
          constructor
          · rw [hwr, clearNonFD_mask]; exact hw
          · intro row hrow
            rw [hout] at hrow
            split at hrow
            · rcases List.mem_append.mp hrow with hin | hone
              · exact Or.inl hin
              · refine Or.inr ?_
                rw [List.mem_singleton.mp hone, mkRow_mask, hw]
                rfl
            · exact Or.inl hrow
      | clear =>
          have hwr : (stepLine iprouteCfg st line).wr =
              clearNonFD iprouteValues (assignCaps st.wr caps) := by
            simp [stepLine, h, applyAct, iprouteCfg_values]
          have hout : (stepLine iprouteCfg st line).out = st.out := by
            simp [stepLine, h, applyAct]
          refine ⟨?_, fun row hrow => Or.inl (hout ▸ hrow)⟩
          rw [hwr, clearNonFD_mask]; exact hw
      | clearall => exact absurd rfl hca
      | next =>
          have hwr : (stepLine iprouteCfg st line).wr = assignCaps st.wr caps := by
            simp [stepLine, h, applyAct]
          have hout : (stepLine iprouteCfg st line).out = st.out := by
            simp [stepLine, h, applyAct]
          exact ⟨by rw [hwr]; exact hw, fun row hrow => Or.inl (hout ▸ hrow)⟩
      | cont =>
          have hwr : (stepLine iprouteCfg st line).wr = assignCaps st.wr caps := by
            simp [stepLine, h, applyAct]
          have hout : (stepLine iprouteCfg st line).out = st.out := by
            simp [stepLine, h, applyAct]
          exact ⟨by rw [hwr]; exact hw, fun row hrow => Or.inl (hout ▸ hrow)⟩
      | toState s =>
          have hwr : (stepLine iprouteCfg st line).wr = assignCaps st.wr caps := by
            simp [stepLine, h, applyAct]
          have hout : (stepLine iprouteCfg st line).out = st.out := by
            simp [stepLine, h, applyAct]
          exact ⟨by rw [hwr]; exact hw, fun row hrow => Or.inl (hout ▸ hrow)⟩

/-- The sample route line used to witness the amended C5. -/
def lineC : String := "C       10.0.0.0 is directly connected, GigabitEthernet0/1"

/-- Captures of the first matching rule on `lineC`. -/
def capsC : Caps :=
  [("PROTOCOL", "C"), ("TYPE", ""), ("NETWORK", "10.0.0.0"),
   ("NEXTHOP_IF", "GigabitEthernet0/1")]

/-- C5 witness: after the Gateway and is-subnetted lines MASK holds 24; the
connected-route line fires a Record action that does not recapture MASK, and
MASK survives the record-implied clear while the emitted row carries 24. -/
theorem C5_filldown_survives_record_clear_witness :
    (stepLine iprouteCfg (runLines iprouteCfg (sampleText.take 2)) lineC).wr "MASK" = some "24" ∧
    ∀ row ∈ (stepLine iprouteCfg (runLines iprouteCfg (sampleText.take 2)) lineC).out,
      row ∈ (runLines iprouteCfg (sampleText.take 2)).out ∨ row.getD 3 "" = "24" :=
  C5_filldown_survives_record_clear (runLines iprouteCfg (sampleText.take 2)) lineC "24"
    rfl
    (by
      intro caps a h
      rw [show firstRuleMatch iprouteCfg (runLines iprouteCfg (sampleText.take 2)).cur lineC
            = some (capsC, LineAct.record) from rfl] at h
      cases h
      exact ⟨by decide, by decide⟩)
